import Mathlib

/-!
# Verification of the Streama client's buffered-streaming playback subsystem

Shallow embedding of the streaming buffer controller of `streama-client.py`
(class `MainWindow`, lines 959-964 and 1190-1338), of the relevant part of
`api.py` (`StreamaAPIClient.get_stream_url`), and of the subtitle parsing
helpers `time_str_to_ms` / `parse_subtitles` (lines 118-162).

Modelling conventions:
* The mutable fields of the window object that the playback session uses
  become the fields of a `MainWindow` structure; every slot/handler becomes a
  pure function `MainWindow → MainWindow × List Effect`, where `Effect`
  records the externally observable actions (calls into the playback sink,
  network aborts, dialogs, HTTP requests).  Byte contents are `List Nat`.
* Qt signal/slot wiring is modelled as in the spec's concurrency section: all
  callbacks run on the single event thread, and a callback of a network reply
  may be delivered asynchronously, after further state changes, including the
  callbacks produced by aborting a transfer.  A signal of a reply invokes the
  slot that `play_video` connected to that reply at request time.
* Status-bar text (`statusBar().showMessage`) and logging (`print`,
  `logging`) are not observable effects of the controller and are modelled as
  no-ops; the progress handlers therefore leave the state unchanged.
-/

namespace Streama

/-- Value of the Qt enum `QNetworkReply.NetworkError.OperationCanceledError`,
the error code a reply reports when it is aborted by the application. -/
def OperationCanceledError : Nat := 5

/-- Externally observable actions of the controller. -/
inductive Effect where
  /-- `player_widget.clear_subtitles()` -/
  | clearSubtitles : Effect
  /-- `player_widget.stop_playback()` -/
  | stopPlayback : Effect
  /-- `reply.abort()` (followed by `reply.deleteLater()`) on the reply with
  the given identity -/
  | abortReply (r : Nat) : Effect
  /-- `player_buffer_device.close()` -/
  | closeBufferDevice : Effect
  /-- `self.download_buffer = None`: the buffer is released -/
  | releaseBuffer : Effect
  /-- `self.playback_started = False` inside cleanup -/
  | resetPlaybackFlag : Effect
  /-- `QMessageBox.critical(...)` with the given message -/
  | errorDialog (msg : String) : Effect
  /-- `player_widget.play_from_device(...)` plus
  `stacked_widget.setCurrentWidget(player_widget)`: the sink is handed the
  buffer device and the surface switches to the player view -/
  | playFromDevice : Effect
  /-- the streaming request `network_manager.get(request)` is issued for the
  given URL -/
  | httpGet (url : String) : Effect
  /-- a `SubtitleDownloader` worker is started for the given URL -/
  | subtitleRequest (url : String) : Effect
deriving DecidableEq, Repr

/-- The session-relevant mutable fields of the `MainWindow` object
(initialised at `streama-client.py` lines 959-964).  `network_reply` holds
the identity of the current `QNetworkReply` (`none` models Python `None`);
`download_buffer` is `none` when the Python field is `None` and `some bytes`
when it holds a `QByteArray`; `player_buffer_device` records whether an open
`QBuffer` device exists; `use_buffer` models `settings["use_buffer"]`
(default `True`), constant while a session runs; `player_widget` records
whether the player widget has been created. -/
structure MainWindow where
  network_reply : Option Nat
  download_buffer : Option (List Nat)
  player_buffer_device : Bool
  playback_started : Bool
  buffer_target : Nat
  is_cleaning_up : Bool
  use_buffer : Bool
  player_widget : Bool
deriving DecidableEq, Repr

/-- The window state right after `MainWindow.__init__` (lines 959-964):
no reply, no buffer, no device, flags clear; `use_buffer` defaults to
`True` (settings default, line 105), no player widget yet. -/
def initWindow : MainWindow :=
  { network_reply := none
    download_buffer := none
    player_buffer_device := false
    playback_started := false
    buffer_target := 0
    is_cleaning_up := false
    use_buffer := true
    player_widget := false }

/-- The buffer condition of line 1255: `self.download_buffer and
self.download_buffer.size() >= self.buffer_target` — the buffer is truthy
(non-empty, Python truthiness of `QByteArray`) and has reached the
target. -/
def thresholdReached (target : Nat) (bytes : List Nat) : Bool :=
  !bytes.isEmpty && decide (target ≤ bytes.length)

/-- `MainWindow.start_playback` (lines 1258-1269): idempotent guard on
`playback_started`; otherwise set the flag, wrap `download_buffer` in an open
`QBuffer` device and hand it to the sink, switching to the player view. -/
def start_playback (s : MainWindow) : MainWindow × List Effect :=
  if s.playback_started then (s, [])
  else ({ s with playback_started := true, player_buffer_device := true },
        [Effect.playFromDevice])

/-- `MainWindow.append_to_buffer` (lines 1252-1256), the `readyRead` slot.
`incoming` is what `self.network_reply.readAll()` returns, i.e. the pending
unread bytes of the *currently installed* reply (a stale `readyRead` finds no
pending bytes of its own transfer there, since stale replies are aborted and
replaced).  The guard mirrors Python truthiness: the append happens only when
`self.network_reply` is not `None` and `self.download_buffer is not None`;
the threshold check requires a truthy (non-empty) buffer. -/
def append_to_buffer (incoming : List Nat) (s : MainWindow) :
    MainWindow × List Effect :=
  let s :=
    if s.network_reply.isSome && s.download_buffer.isSome then
      { s with download_buffer := s.download_buffer.map (· ++ incoming) }
    else s
  if s.use_buffer && !s.playback_started &&
      (match s.download_buffer with
       | some b => thresholdReached s.buffer_target b
       | none => false) then
    start_playback s
  else (s, [])

/-- `MainWindow.on_download_progress` (lines 1279-1281): only updates the
status bar ("Buffering: X MB") while not playing; no state change. -/
def on_download_progress (bytes_rec bytes_total : Nat) (s : MainWindow) :
    MainWindow × List Effect :=
  (s, [])

/-- `MainWindow.on_full_download_progress` (lines 1283-1289): only updates
the status bar ("Downloading video: ..."); no state change. -/
def on_full_download_progress (bytes_received bytes_total : Nat)
    (s : MainWindow) : MainWindow × List Effect :=
  (s, [])

/-- `MainWindow.on_download_finished` (lines 1291-1294), the `finished` slot
connected in pre-buffering mode: start playback iff it has not started and
the buffer is truthy with positive size. -/
def on_download_finished (s : MainWindow) : MainWindow × List Effect :=
  if !s.playback_started &&
      (match s.download_buffer with
       | some b => !b.isEmpty && decide (0 < b.length)
       | none => false) then
    start_playback s
  else (s, [])

/-- `MainWindow.on_robust_download_finished` (lines 1296-1298), the
`finished` slot connected in full-download mode: start playback
unconditionally. -/
def on_robust_download_finished (s : MainWindow) : MainWindow × List Effect :=
  start_playback s

/-- `MainWindow.cleanup_after_playback` (lines 1308-1329).  Guarded by
`is_cleaning_up`; otherwise sets the guard, then releases every resource:
clear subtitles (player widget present), stop the sink (if playback had
started), null and abort the reply, close and drop the buffer device, drop
the buffer, reset `playback_started`. -/
def cleanup_after_playback (s : MainWindow) : MainWindow × List Effect :=
  if s.is_cleaning_up then (s, [])
  else
    ({ s with
        is_cleaning_up := true
        network_reply := none
        player_buffer_device := false
        download_buffer := none
        playback_started := false },
      (if s.player_widget then [Effect.clearSubtitles] else []) ++
      (if s.playback_started ∧ s.player_widget then [Effect.stopPlayback]
       else []) ++
      (match s.network_reply with
       | some r => [Effect.abortReply r]
       | none => []) ++
      (if s.player_buffer_device then [Effect.closeBufferDevice] else []) ++
      [Effect.releaseBuffer, Effect.resetPlaybackFlag])

/-- `MainWindow.on_stream_error` (lines 1300-1307), the `errorOccurred` slot.
`err_str` is what `self.network_reply.errorString()` returns (external
input).  Dropped when already cleaning up or the reply handle is `None`;
otherwise a dialog is shown unless the code is `OperationCanceledError`, and
cleanup runs. -/
def on_stream_error (error_code : Nat) (err_str : String) (s : MainWindow) :
    MainWindow × List Effect :=
  if s.is_cleaning_up ∨ s.network_reply = none then (s, [])
  else
    let dialog :=
      if error_code ≠ OperationCanceledError then
        [Effect.errorDialog ("Could not load video:\n" ++ err_str)]
      else []
    let c := cleanup_after_playback s
    (c.1, dialog ++ c.2)

/-- The session-relevant part of `StreamaAPIClient` (`api.py`): the
configured base URL (`none` before `configure`) and the cookie jar of its
`requests` session, as an ordered name→value mapping. -/
structure ApiClient where
  base_url : Option String
  cookies : List (String × String)

/-- `StreamaAPIClient.get_stream_url` (`api.py` lines 63-66): pure string
formatting, no network; fails only when the client is unconfigured. -/
def get_stream_url (api : ApiClient) (file_id : Nat) (extension : String) :
    Option String × Option String :=
  match api.base_url with
  | none => (none, some "API Client not configured")
  | some b => (some (b ++ "/file/serve/" ++ toString file_id ++ "." ++ extension), none)

/-- The cookie header built at line 1226:
`"; ".join([f"{n}={v}" for n,v in cookies.items()])`. -/
def cookie_header (cookies : List (String × String)) : String :=
  String.intercalate "; " (cookies.map (fun p => p.1 ++ "=" ++ p.2))

/-- `MainWindow.play_video` (lines 1190-1250).  `video_files` carries the
file ids of `media_data['videoFiles']`; `selected_subtitle` is
`some (sub.get('id'))` when a subtitle dict was passed; `new_reply_id` is
the identity of the `QNetworkReply` that `network_manager.get` returns.
Order of effects follows the source: cleanup, `clear_subtitles`, optional
subtitle worker, then the precondition checks (no video file / no stream
URL / empty cookie header), each refusing with a modal dialog, and finally
the streaming GET with the handlers connected according to
`settings["use_buffer"]`. -/
def play_video (api : ApiClient) (use_buffer : Bool) (buffer_size_mb : Nat)
    (video_files : List Nat) (selected_subtitle : Option (Option Nat))
    (new_reply_id : Nat) (s : MainWindow) : MainWindow × List Effect :=
  let s := { s with player_widget := true }
  let c := cleanup_after_playback s
  let s := { c.1 with
              is_cleaning_up := false
              playback_started := false
              download_buffer := some [] }
  let pre := c.2 ++ [Effect.clearSubtitles]
  let pre := pre ++
    (match selected_subtitle with
     | some (some sub_id) =>
        (match (get_stream_url api sub_id "srt").1 with
         | some sub_url => [Effect.subtitleRequest sub_url]
         | none => [])
     | _ => [])
  match video_files with
  | [] => (s, pre ++ [Effect.errorDialog "No video file found for this item."])
  | fid :: _ =>
    match get_stream_url api fid "mp4" with
    | (none, err) =>
        (s, pre ++ [Effect.errorDialog
          ("Could not get video stream URL:\n" ++ err.getD "No file ID.")])
    | (some stream_url, _) =>
      if cookie_header api.cookies = "" then
        (s, pre ++ [Effect.errorDialog "Login session cookie not found."])
      else
        ({ s with
            network_reply := some new_reply_id
            buffer_target := if use_buffer then buffer_size_mb * 1024 * 1024 else 0
            use_buffer := use_buffer },
          pre ++ [Effect.httpGet stream_url])

/-! ## Single-session event semantics

A successful `play_video` leaves one in-flight transfer whose signals are
connected to the handlers chosen by `settings["use_buffer"]` (lines
1234-1250).  A session's observable inputs are the events of that transfer:
incremental data (`readyRead`, whose `readAll` yields the chunk), progress
reports, and the terminal `finished`.  Terminal errors and cleanup are
treated separately (`on_stream_error`, `cleanup_after_playback`). -/

/-- An event of one transfer, delivered on the event thread. -/
inductive SEvent where
  | data (chunk : List Nat) : SEvent
  | progress (bytes_rec bytes_total : Nat) : SEvent
  | finished : SEvent
deriving DecidableEq, Repr

/-- The slot `play_video` connects to the reply's `finished` signal:
`on_download_finished` in pre-buffering mode (line 1244),
`on_robust_download_finished` in full-download mode (line 1250). -/
def finished_handler (use_buffer_at_connect : Bool) (s : MainWindow) :
    MainWindow × List Effect :=
  if use_buffer_at_connect then on_download_finished s
  else on_robust_download_finished s

/-- The slot `play_video` connects to the reply's `downloadProgress` signal
(lines 1243/1249). -/
def progress_handler (use_buffer_at_connect : Bool)
    (bytes_rec bytes_total : Nat) (s : MainWindow) : MainWindow × List Effect :=
  if use_buffer_at_connect then on_download_progress bytes_rec bytes_total s
  else on_full_download_progress bytes_rec bytes_total s

/-- The window state right after a successful `play_video` in the given
mode: fresh empty buffer, flags clear, reply installed (identity 0),
`buffer_target` as lines 1240/1246 set it. -/
def session_init (use_buffer : Bool) (target : Nat) : MainWindow :=
  { network_reply := some 0
    download_buffer := some []
    player_buffer_device := false
    playback_started := false
    buffer_target := if use_buffer then target else 0
    is_cleaning_up := false
    use_buffer := use_buffer
    player_widget := true }

/-- Dispatch one event of the session's transfer to the slot that
`play_video` connected for it. -/
def session_step (s : MainWindow) (e : SEvent) : MainWindow × List Effect :=
  match e with
  | .data chunk => append_to_buffer chunk s
  | .progress br bt => progress_handler s.use_buffer br bt s
  | .finished => finished_handler s.use_buffer s

/-- Deliver a list of events in order, accumulating effects. -/
def session_run (s : MainWindow) : List SEvent → MainWindow × List Effect
  | [] => (s, [])
  | e :: es =>
    let c := session_step s e
    let r := session_run c.1 es
    (r.1, c.2 ++ r.2)

/-- Whether the event list contains the terminal `finished` event, i.e.
whether the transfer has completed. -/
def transferComplete (es : List SEvent) : Bool :=
  es.any (fun e => match e with | .finished => true | _ => false)

theorem transferComplete_cons (e : SEvent) (es : List SEvent) :
    transferComplete (e :: es) =
      ((match e with | .finished => true | _ => false) ||
        transferComplete es) := by
  simp [transferComplete]

/-- The shape of every state a pre-buffering session reaches from
`session_init true target` under its transfer's events: accumulated
`bytes`, and the `playback_started`/device pair as one flag. -/
def pbState (target : Nat) (bytes : List Nat) (started : Bool) : MainWindow :=
  { network_reply := some 0
    download_buffer := some bytes
    player_buffer_device := started
    playback_started := started
    buffer_target := target
    is_cleaning_up := false
    use_buffer := true
    player_widget := true }

/-- The shape of every state a full-download session reaches from
`session_init false target`. -/
def fdState (bytes : List Nat) (started : Bool) : MainWindow :=
  { network_reply := some 0
    download_buffer := some bytes
    player_buffer_device := started
    playback_started := started
    buffer_target := 0
    is_cleaning_up := false
    use_buffer := false
    player_widget := true }

/-- Specification-level recurrence for the buffer contents and the
started flag of a pre-buffering session. -/
def pbRun (target : Nat) (bytes : List Nat) (started : Bool) :
    List SEvent → List Nat × Bool
  | [] => (bytes, started)
  | .data c :: es =>
      pbRun target (bytes ++ c) (started || thresholdReached target (bytes ++ c)) es
  | .progress _ _ :: es => pbRun target bytes started es
  | .finished :: es => pbRun target bytes (started || !bytes.isEmpty) es

/-- Specification-level recurrence for the buffer contents and the started
flag of a full-download session. -/
def fdRun (bytes : List Nat) (started : Bool) :
    List SEvent → List Nat × Bool
  | [] => (bytes, started)
  | .data c :: es => fdRun (bytes ++ c) started es
  | .progress _ _ :: es => fdRun bytes started es
  | .finished :: es => fdRun bytes true es

/-- The buffer size the invariant of the data model speaks about
(`receivedBuffer.size()`); 0 when the buffer has been released. -/
def bufSize : Option (List Nat) → Nat
  | some b => b.length
  | none => 0

/-- Whether an effect is a user-visible error dialog. -/
def isErrorDialog : Effect → Bool
  | .errorDialog _ => true
  | _ => false

/-- Whether a list of effects surfaces a user-visible error dialog. -/
def hasDialog (effs : List Effect) : Bool :=
  effs.any isErrorDialog

/-! ## Subtitle parsing (`time_str_to_ms`, `parse_subtitles`)

Python strings are modelled as `List Char` (the programs only use ASCII
operations).  `pySplit` is Python's `str.split(sep)` for a non-empty
separator: leftmost, non-overlapping, keeping empty pieces.  It recurses on
an explicit fuel, initially the string length; since the separator is
non-empty, every step consumes at least one character, so the fuel never
runs out before the string is exhausted. -/

/-- One splitting step per unit of fuel; when the fuel hits zero the rest of
the string (necessarily empty for fuel = initial length and non-empty
separator) joins the current piece. -/
def splitGo (sep : List Char) : Nat → List Char → List Char →
    List (List Char)
  | 0, s, acc => [acc.reverse ++ s]
  | fuel + 1, s, acc =>
    match s with
    | [] => [acc.reverse]
    | c :: rest =>
      if sep.isPrefixOf (c :: rest) then
        acc.reverse :: splitGo sep fuel ((c :: rest).drop sep.length) []
      else splitGo sep fuel rest (c :: acc)

/-- Python `s.split(sep)` for non-empty `sep` (Python raises on an empty
separator; the programs never pass one). -/
def pySplit (sep s : List Char) : List (List Char) :=
  if sep.isEmpty then [s] else splitGo sep s.length s []

/-- Python whitespace as `str.strip()` removes it (ASCII part). -/
def pyIsSpace (c : Char) : Bool :=
  c = ' ' || c = '\t' || c = '\n' || c = '\r' || c = '\x0b' || c = '\x0c'

/-- Python `s.strip()`. -/
def pyStrip (s : List Char) : List Char :=
  ((s.dropWhile pyIsSpace).reverse.dropWhile pyIsSpace).reverse

/-- After the first digit, Python `int` accepts digits with single
underscores strictly between digits. -/
def pyDigitTail : List Char → Bool
  | [] => true
  | '_' :: d :: rest => d.isDigit && pyDigitTail rest
  | '_' :: [] => false
  | c :: rest => c.isDigit && pyDigitTail rest

/-- Numeric value of a digit string, ignoring the underscores
`pyDigitTail` has validated. -/
def digitsToNat (cs : List Char) : Nat :=
  cs.foldl (fun a c => if c = '_' then a else a * 10 + (c.toNat - 48)) 0

/-- Python `int(s)` on an ASCII string: optional surrounding whitespace, an
optional sign, then digits (underscores allowed between digits);
`none` models the `ValueError` the `except` clauses catch. -/
def pyStrToInt? (s : List Char) : Option Int :=
  let cs := pyStrip s
  let signAndDigits : Int × List Char :=
    match cs with
    | '+' :: rest => (1, rest)
    | '-' :: rest => (-1, rest)
    | _ => (1, cs)
  match signAndDigits.2 with
  | [] => none
  | d :: ds =>
    if d.isDigit && pyDigitTail ds then
      some (signAndDigits.1 * (digitsToNat (d :: ds) : Int))
    else none

/-- The arithmetic of `time_str_to_ms` lines 129-134: unpack
`s, ms = s_ms.split('.')` (exactly two pieces, else `ValueError` → 0) and
convert the four fields with `int` (any failure → 0). -/
def timeFields (hour? : Option Int) (m s_ms : List Char) : Int :=
  match pySplit ['.'] s_ms with
  | [s, ms] =>
    match hour?, pyStrToInt? m, pyStrToInt? s, pyStrToInt? ms with
    | some hv, some mv, some sv, some msv =>
        hv * 3600000 + mv * 60000 + sv * 1000 + msv
    | _, _, _, _ => 0
  | _ => 0

/-- `time_str_to_ms` (lines 118-134): replace `,` by `.`, split on `:`;
three parts give `h:m:s.ms`, two give `m:s.ms` with `h = 0`, anything else
returns 0. -/
def time_str_to_ms (time_str : List Char) : Int :=
  let t := time_str.map (fun c => if c = ',' then '.' else c)
  match pySplit [':'] t with
  | [h, m, s_ms] => timeFields (pyStrToInt? h) m s_ms
  | [m, s_ms] => timeFields (some 0) m s_ms
  | _ => 0

/-- `re.sub(r'<[^>]+>', '', text)` of line 156: remove every `<`, one or
more non-`>` characters, `>`; leftmost and non-overlapping, greedy up to the
next `>`.  Fuel-based like `pySplit` (each step consumes at least one
character). -/
def stripTagsGo : Nat → List Char → List Char
  | 0, s => s
  | fuel + 1, s =>
    match s with
    | [] => []
    | '<' :: rest =>
      match rest.dropWhile (· ≠ '>') with
      | '>' :: tail =>
        if (rest.takeWhile (· ≠ '>')).isEmpty then
          '<' :: stripTagsGo fuel rest
        else stripTagsGo fuel tail
      | _ => '<' :: stripTagsGo fuel rest
    | c :: rest => c :: stripTagsGo fuel rest

def stripTags (s : List Char) : List Char := stripTagsGo s.length s

/-- The per-block work of the `for block in blocks` loop of
`parse_subtitles` (lines 144-160): skip VTT headers, find the `-->` line,
unpack it on ` --> ` (exactly two pieces, else the `except` skips the
block), parse the two times, join and tag-strip the following lines, and
keep the cue only when the remaining text is non-empty. -/
def parseBlock (is_vtt : Bool) (subtitles : List (Int × Int × List Char))
    (block : List Char) : List (Int × Int × List Char) :=
  let lines := pySplit ['\n'] (pyStrip block)
  if is_vtt && (lines.headD [] = "WEBVTT".data || (lines.headD []).isEmpty)
  then subtitles
  else
    match lines.findIdx? (fun l => 2 ≤ (pySplit "-->".data l).length) with
    | none => subtitles
    | some i =>
      match pySplit " --> ".data (lines.getD i []) with
      | [start_str, end_str0] =>
        let end_str := (pySplit [' '] end_str0).headD []
        let start_ms := time_str_to_ms (pyStrip start_str)
        let end_ms := time_str_to_ms (pyStrip end_str)
        let text0 := List.intercalate ['\n'] (lines.drop (i + 1))
        let text := stripTags text0
        if !text.isEmpty then subtitles ++ [(start_ms, end_ms, text)]
        else subtitles
      | _ => subtitles

/-- `parse_subtitles` (lines 136-162): empty input gives `[]`; otherwise
strip, delete `\r`, detect `WEBVTT`, split into blank-line-separated blocks
and fold `parseBlock` over them. -/
def parse_subtitles (subtitle_content : List Char) :
    List (Int × Int × List Char) :=
  if subtitle_content.isEmpty then []
  else
    let content := (pyStrip subtitle_content).filter (· ≠ '\r')
    let is_vtt := "WEBVTT".data.isPrefixOf content
    let blocks := pySplit ['\n', '\n'] content
    blocks.foldl (parseBlock is_vtt) []

/-- Whether the fields handled by `timeFields` all parse: the last field
splits on `.` into exactly two pieces and every field is an integer. -/
def fieldsParsable (hour? : Option Int) (m s_ms : List Char) : Bool :=
  match pySplit ['.'] s_ms with
  | [s, ms] =>
      hour?.isSome && (pyStrToInt? m).isSome && (pyStrToInt? s).isSome &&
        (pyStrToInt? ms).isSome
  | _ => false

/-- The well-formedness condition on a time string under which
`time_str_to_ms` has numeric content: two or three `:`-separated fields,
the last of which is `seconds.milliseconds`, and every field parses as an
integer.  (The claim: on every other string the function returns 0.) -/
def timeParsable (time_str : List Char) : Bool :=
  let t := time_str.map (fun c => if c = ',' then '.' else c)
  match pySplit [':'] t with
  | [h, m, s_ms] => fieldsParsable (pyStrToInt? h) m s_ms
  | [m, s_ms] => fieldsParsable (some 0) m s_ms
  | _ => false

/-! ## Concrete sessions used by the two-session scenario

`apiC` is a configured client with a non-empty cookie set.  `sessionA` is
the window state with a full-download session A in flight (reply identity
0, whose `finished` signal is connected to `on_robust_download_finished`);
`sessionB` starts a pre-buffering session B (reply identity 1) on top of
it, which runs `cleanup_after_playback` — aborting and nulling A's reply —
before installing B's transfer. -/

def apiC : ApiClient :=
  { base_url := some "http://server:8080", cookies := [("JSESSIONID", "abc")] }

def sessionA : MainWindow := (play_video apiC false 5 [1] none 0 initWindow).1

def sessionB : MainWindow := (play_video apiC true 5 [2] none 1 sessionA).1

/-! ## Lemmas: session states keep the `pbState`/`fdState` shape -/

theorem thresholdReached_mono {target : Nat} {b : List Nat} (c : List Nat)
    (h : thresholdReached target b = true) :
    thresholdReached target (b ++ c) = true := by
  simp only [thresholdReached, Bool.and_eq_true, Bool.not_eq_true',
    decide_eq_true_eq] at h ⊢
  refine ⟨?_, le_trans h.2 (by simp)⟩
  cases b
  · simp at h
  · simp

theorem session_init_pb (target : Nat) :
    session_init true target = pbState target [] false := rfl

theorem session_init_fd (target : Nat) :
    session_init false target = fdState [] false := rfl

theorem append_pbState (target : Nat) (bytes : List Nat) (started : Bool)
    (c : List Nat) :
    append_to_buffer c (pbState target bytes started) =
      (pbState target (bytes ++ c)
        (started || thresholdReached target (bytes ++ c)),
       if !started && thresholdReached target (bytes ++ c) then
         [Effect.playFromDevice]
       else []) := by
  cases started <;> cases h : thresholdReached target (bytes ++ c) <;>
    simp [append_to_buffer, pbState, start_playback, h]

theorem finished_pbState (target : Nat) (bytes : List Nat) (started : Bool) :
    finished_handler true (pbState target bytes started) =
      (pbState target bytes (started || !bytes.isEmpty),
       if !started && !bytes.isEmpty then [Effect.playFromDevice] else []) := by
  cases started <;> cases bytes <;>
    simp [finished_handler, on_download_finished, pbState, start_playback]

@[simp] theorem pbState_use_buffer (target : Nat) (bytes : List Nat)
    (started : Bool) : (pbState target bytes started).use_buffer = true := rfl

@[simp] theorem fdState_use_buffer (bytes : List Nat) (started : Bool) :
    (fdState bytes started).use_buffer = false := rfl

theorem progress_id (u : Bool) (br bt : Nat) (s : MainWindow) :
    progress_handler u br bt s = (s, []) := by
  cases u <;> rfl

theorem run_pbState (target : Nat) :
    ∀ (es : List SEvent) (bytes : List Nat) (started : Bool),
      (session_run (pbState target bytes started) es).1 =
        pbState target (pbRun target bytes started es).1
          (pbRun target bytes started es).2
  | [], _, _ => rfl
  | .data c :: es, bytes, started => by
      simp only [session_run, session_step, append_pbState, pbRun]
      exact run_pbState target es (bytes ++ c) _
  | .progress br bt :: es, bytes, started => by
      simp only [session_run, session_step, progress_id, pbRun]
      exact run_pbState target es bytes started
  | .finished :: es, bytes, started => by
      simp only [session_run, session_step, pbState_use_buffer,
        finished_pbState, pbRun]
      exact run_pbState target es bytes _

theorem pbRun_mono_flag (target : Nat) :
    ∀ (es : List SEvent) (bytes : List Nat),
      (pbRun target bytes true es).2 = true
  | [], _ => rfl
  | .data c :: es, bytes => by
      simpa [pbRun] using pbRun_mono_flag target es (bytes ++ c)
  | .progress _ _ :: es, bytes => pbRun_mono_flag target es bytes
  | .finished :: es, bytes => by
      simpa [pbRun] using pbRun_mono_flag target es bytes

theorem count_pbState (target : Nat) :
    ∀ (es : List SEvent) (bytes : List Nat) (started : Bool),
      ((session_run (pbState target bytes started) es).2.count
          Effect.playFromDevice) =
        if (pbRun target bytes started es).2 && !started then 1 else 0
  | [], _, _ => by simp [session_run, pbRun]
  | .data c :: es, bytes, started => by
      have ih := count_pbState target es (bytes ++ c)
        (started || thresholdReached target (bytes ++ c))
      simp only [session_run, session_step]
      rw [append_pbState]
      simp only [List.count_append, pbRun]
      rw [ih]
      cases started
      · by_cases h : thresholdReached target (bytes ++ c) = true
        · simp [h, pbRun_mono_flag]
        · rw [Bool.not_eq_true] at h
          simp [h]
      · simp
  | .progress br bt :: es, bytes, started => by
      have ih := count_pbState target es bytes started
      simp only [session_run, session_step]
      rw [progress_id]
      simp only [List.count_append, pbRun]
      rw [ih]
      simp
  | .finished :: es, bytes, started => by
      have ih := count_pbState target es bytes (started || !bytes.isEmpty)
      simp only [session_run, session_step, pbState_use_buffer]
      rw [finished_pbState]
      simp only [List.count_append, pbRun]
      rw [ih]
      cases started
      · by_cases hb : bytes.isEmpty = true
        · simp [hb]
        · rw [Bool.not_eq_true] at hb
          simp [hb, pbRun_mono_flag]
      · simp

theorem append_fdState (bytes : List Nat) (started : Bool) (c : List Nat) :
    append_to_buffer c (fdState bytes started) =
      (fdState (bytes ++ c) started, []) := by
  cases started <;> simp [append_to_buffer, fdState]

theorem finished_fdState (bytes : List Nat) (started : Bool) :
    finished_handler false (fdState bytes started) =
      (fdState bytes true,
       if !started then [Effect.playFromDevice] else []) := by
  cases started <;>
    simp [finished_handler, on_robust_download_finished, fdState,
      start_playback]

theorem run_fdState :
    ∀ (es : List SEvent) (bytes : List Nat) (started : Bool),
      (session_run (fdState bytes started) es).1 =
        fdState (fdRun bytes started es).1 (fdRun bytes started es).2
  | [], _, _ => rfl
  | .data c :: es, bytes, started => by
      simp only [session_run, session_step, append_fdState, fdRun]
      exact run_fdState es (bytes ++ c) started
  | .progress br bt :: es, bytes, started => by
      simp only [session_run, session_step, progress_id, fdRun]
      exact run_fdState es bytes started
  | .finished :: es, bytes, started => by
      simp only [session_run, session_step, fdState_use_buffer,
        finished_fdState, fdRun]
      exact run_fdState es bytes true

theorem fdRun_mono_flag :
    ∀ (es : List SEvent) (bytes : List Nat),
      (fdRun bytes true es).2 = true
  | [], _ => rfl
  | .data c :: es, bytes => fdRun_mono_flag es (bytes ++ c)
  | .progress _ _ :: es, bytes => fdRun_mono_flag es bytes
  | .finished :: es, bytes => fdRun_mono_flag es bytes

theorem count_fdState :
    ∀ (es : List SEvent) (bytes : List Nat) (started : Bool),
      ((session_run (fdState bytes started) es).2.count
          Effect.playFromDevice) =
        if (fdRun bytes started es).2 && !started then 1 else 0
  | [], _, _ => by simp [session_run, fdRun]
  | .data c :: es, bytes, started => by
      have ih := count_fdState es (bytes ++ c) started
      simp only [session_run, session_step]
      rw [append_fdState]
      simp only [List.count_append, fdRun]
      rw [ih]
      simp
  | .progress br bt :: es, bytes, started => by
      have ih := count_fdState es bytes started
      simp only [session_run, session_step]
      rw [progress_id]
      simp only [List.count_append, fdRun]
      rw [ih]
      simp
  | .finished :: es, bytes, started => by
      have ih := count_fdState es bytes true
      simp only [session_run, session_step, fdState_use_buffer]
      rw [finished_fdState]
      simp only [List.count_append, fdRun]
      rw [ih]
      cases started <;> simp [fdRun_mono_flag]

/-- The started flag of a full-download session stays clear until the
transfer completes. -/
theorem fdRun_flag_of_not_finished :
    ∀ (es : List SEvent) (bytes : List Nat),
      transferComplete es = false → (fdRun bytes false es).2 = false
  | [], _, _ => rfl
  | .data c :: es, bytes, h => by
      simp only [transferComplete, List.any_cons, Bool.or_eq_false_iff]
        at h
      exact fdRun_flag_of_not_finished es (bytes ++ c)
        (by simp [transferComplete, h.2])
  | .progress _ _ :: es, bytes, h => by
      simp only [transferComplete, List.any_cons, Bool.or_eq_false_iff]
        at h
      exact fdRun_flag_of_not_finished es bytes
        (by simp [transferComplete, h.2])
  | .finished :: es, bytes, h => by
      simp [transferComplete] at h

/-- The buffer of a pre-buffering session only grows. -/
theorem pbRun_length_mono (target : Nat) :
    ∀ (es : List SEvent) (bytes : List Nat) (started : Bool),
      bytes.length ≤ (pbRun target bytes started es).1.length
  | [], _, _ => le_refl _
  | .data c :: es, bytes, started => by
      calc bytes.length ≤ (bytes ++ c).length := by simp
        _ ≤ _ := pbRun_length_mono target es (bytes ++ c) _
  | .progress _ _ :: es, bytes, started =>
      pbRun_length_mono target es bytes started
  | .finished :: es, bytes, started =>
      pbRun_length_mono target es bytes _

/-- Where the started flag of a pre-buffering session can come from: it was
already set, or the buffer reached the target, or the transfer completed. -/
theorem pbRun_flag_origin (target : Nat) :
    ∀ (es : List SEvent) (bytes : List Nat) (started : Bool),
      (pbRun target bytes started es).2 = true →
      started = true ∨ target ≤ (pbRun target bytes started es).1.length ∨
        transferComplete es = true
  | [], _, _, h => Or.inl h
  | .data c :: es, bytes, started, h => by
      rcases pbRun_flag_origin target es (bytes ++ c) _ h with h1 | h2 | h3
      · rcases Bool.or_eq_true_iff.mp h1 with h1a | h1b
        · exact Or.inl h1a
        · refine Or.inr (Or.inl ?_)
          have hlen : target ≤ (bytes ++ c).length := by
            have := (Bool.and_eq_true _ _).mp h1b
            simpa using this.2
          exact le_trans hlen (pbRun_length_mono target es (bytes ++ c) _)
      · exact Or.inr (Or.inl h2)
      · exact Or.inr (Or.inr (by simp [transferComplete_cons, h3]))
  | .progress br bt :: es, bytes, started, h => by
      rcases pbRun_flag_origin target es bytes started h with h1 | h2 | h3
      · exact Or.inl h1
      · exact Or.inr (Or.inl h2)
      · exact Or.inr (Or.inr (by simp [transferComplete_cons, h3]))
  | .finished :: es, bytes, started, h =>
      Or.inr (Or.inr (by simp [transferComplete]))

/-- Once `playback_started` is set, no transfer event clears it. -/
theorem step_keeps_started (s : MainWindow) (e : SEvent)
    (h : s.playback_started = true) :
    (session_step s e).1.playback_started = true := by
  cases e with
  | data c =>
      simp only [session_step, append_to_buffer]
      split <;> simp [h, start_playback]
  | progress br bt => simpa [session_step, progress_id] using h
  | finished =>
      cases hu : s.use_buffer <;>
        simp [session_step, hu, finished_handler, on_download_finished,
          on_robust_download_finished, start_playback, h]

theorem run_keeps_started :
    ∀ (es : List SEvent) (s : MainWindow),
      s.playback_started = true →
      (session_run s es).1.playback_started = true
  | [], _, h => h
  | e :: es, s, h =>
      run_keeps_started es (session_step s e).1 (step_keeps_started s e h)

/-- `pbRun` over a pure data trace: the buffer accumulates the chunks and
the flag is the threshold condition on the accumulated bytes (the flag is
monotone and the threshold condition is monotone in the buffer). -/
theorem pbRun_data (target : Nat) :
    ∀ (p : List (List Nat)) (bytes : List Nat),
      pbRun target bytes (thresholdReached target bytes)
          (p.map SEvent.data) =
        (bytes ++ p.flatten, thresholdReached target (bytes ++ p.flatten))
  | [], bytes => by simp [pbRun]
  | c :: p, bytes => by
      have habs : (thresholdReached target bytes ||
          thresholdReached target (bytes ++ c)) =
          thresholdReached target (bytes ++ c) := by
        by_cases h : thresholdReached target bytes = true
        · rw [h, thresholdReached_mono c h]
          rfl
        · rw [Bool.not_eq_true] at h
          rw [h, Bool.false_or]
      simp only [List.map_cons, pbRun, habs]
      rw [pbRun_data target p (bytes ++ c)]
      simp [List.append_assoc]

theorem pbRun_append (target : Nat) :
    ∀ (es es' : List SEvent) (bytes : List Nat) (started : Bool),
      pbRun target bytes started (es ++ es') =
        pbRun target (pbRun target bytes started es).1
          (pbRun target bytes started es).2 es'
  | [], _, _, _ => rfl
  | .data c :: es, es', bytes, started => by
      simp only [List.cons_append, pbRun]
      exact pbRun_append target es es' (bytes ++ c) _
  | .progress _ _ :: es, es', bytes, started => by
      simp only [List.cons_append, pbRun]
      exact pbRun_append target es es' bytes started
  | .finished :: es, es', bytes, started => by
      simp only [List.cons_append, pbRun]
      exact pbRun_append target es es' bytes _

theorem fdRun_append :
    ∀ (es es' : List SEvent) (bytes : List Nat) (started : Bool),
      fdRun bytes started (es ++ es') =
        fdRun (fdRun bytes started es).1 (fdRun bytes started es).2 es'
  | [], _, _, _ => rfl
  | .data c :: es, es', bytes, started => by
      simp only [List.cons_append, fdRun]
      exact fdRun_append es es' (bytes ++ c) started
  | .progress _ _ :: es, es', bytes, started => by
      simp only [List.cons_append, fdRun]
      exact fdRun_append es es' bytes started
  | .finished :: es, es', bytes, started => by
      simp only [List.cons_append, fdRun]
      exact fdRun_append es es' bytes true

theorem session_run_append :
    ∀ (es es' : List SEvent) (s : MainWindow),
      session_run s (es ++ es') =
        ((session_run (session_run s es).1 es').1,
         (session_run s es).2 ++ (session_run (session_run s es).1 es').2)
  | [], _, _ => by simp [session_run]
  | e :: es, es', s => by
      simp only [List.cons_append, session_run, List.append_eq]
      rw [session_run_append es es' (session_step s e).1]
      simp [List.append_assoc]

/-- Every effect a pre-buffering session's own events produce is a
`playFromDevice`; in particular no dialog is ever surfaced. -/
theorem pb_effects_play (target : Nat) :
    ∀ (es : List SEvent) (bytes : List Nat) (started : Bool),
      ∀ e ∈ (session_run (pbState target bytes started) es).2,
        e = Effect.playFromDevice
  | [], _, _ => by simp [session_run]
  | .data c :: es, bytes, started => by
      intro e he
      simp only [session_run, session_step] at he
      rw [append_pbState] at he
      simp only [List.mem_append] at he
      rcases he with he | he
      · split at he
        · simp only [List.mem_singleton] at he
          exact he
        · simp at he
      · exact pb_effects_play target es _ _ e he
  | .progress br bt :: es, bytes, started => by
      intro e he
      simp only [session_run, session_step] at he
      rw [progress_id] at he
      simp only [List.mem_append] at he
      rcases he with he | he
      · simp at he
      · exact pb_effects_play target es bytes started e he
  | .finished :: es, bytes, started => by
      intro e he
      simp only [session_run, session_step, pbState_use_buffer] at he
      rw [finished_pbState] at he
      simp only [List.mem_append] at he
      rcases he with he | he
      · split at he
        · simp only [List.mem_singleton] at he
          exact he
        · simp at he
      · exact pb_effects_play target es _ _ e he

/-- Cleanup leaves the guard set. -/
theorem cleanup_sets_guard (s : MainWindow) :
    (cleanup_after_playback s).1.is_cleaning_up = true := by
  by_cases h : s.is_cleaning_up = true <;> simp [cleanup_after_playback, h]

/-- The only effects cleanup performs are the six release steps. -/
theorem cleanup_effect_shape (s : MainWindow) (e : Effect)
    (he : e ∈ (cleanup_after_playback s).2) :
    e = Effect.clearSubtitles ∨ e = Effect.stopPlayback ∨
    (∃ r, e = Effect.abortReply r) ∨ e = Effect.closeBufferDevice ∨
    e = Effect.releaseBuffer ∨ e = Effect.resetPlaybackFlag := by
  by_cases h : s.is_cleaning_up = true
  · simp [cleanup_after_playback, h] at he
  · cases hr : s.network_reply <;>
      by_cases hw : s.player_widget = true <;>
      by_cases hp : s.playback_started = true <;>
      by_cases hd : s.player_buffer_device = true <;>
      simp [cleanup_after_playback, h, hr, hw, hp, hd] at he <;>
      tauto

/-- Cleanup never surfaces a dialog. -/
theorem cleanup_no_dialog (s : MainWindow) :
    hasDialog (cleanup_after_playback s).2 = false := by
  by_cases h : s.is_cleaning_up = true
  · simp [cleanup_after_playback, h, hasDialog]
  · cases hr : s.network_reply <;>
      by_cases hw : s.player_widget = true <;>
      by_cases hp : s.playback_started = true <;>
      by_cases hd : s.player_buffer_device = true <;>
      simp [cleanup_after_playback, h, hr, hw, hp, hd, hasDialog,
        isErrorDialog]

@[simp] theorem pbState_playback_started (target : Nat) (bytes : List Nat)
    (started : Bool) : (pbState target bytes started).playback_started =
    started := rfl

@[simp] theorem pbState_download_buffer (target : Nat) (bytes : List Nat)
    (started : Bool) : (pbState target bytes started).download_buffer =
    some bytes := rfl

@[simp] theorem fdState_playback_started (bytes : List Nat) (started : Bool) :
    (fdState bytes started).playback_started = started := rfl

/-- State of a pre-buffering session after a pure data trace from a fresh
start: the chunks are accumulated and the started flag is exactly the
threshold condition. -/
theorem run_data_from_init (target : Nat) (p : List (List Nat)) :
    (session_run (session_init true target) (p.map SEvent.data)).1 =
      pbState target p.flatten (thresholdReached target p.flatten) := by
  rw [session_init_pb, run_pbState]
  have hp := pbRun_data target p []
  rw [show thresholdReached target [] = false from rfl] at hp
  rw [hp]
  simp

/-- The sink is handed the buffer exactly once over a pure data trace iff
the threshold condition is met at the end. -/
theorem count_data_from_init (target : Nat) (p : List (List Nat)) :
    (session_run (session_init true target) (p.map SEvent.data)).2.count
        Effect.playFromDevice =
      if thresholdReached target p.flatten then 1 else 0 := by
  rw [session_init_pb, count_pbState]
  have hp := pbRun_data target p []
  rw [show thresholdReached target [] = false from rfl] at hp
  rw [hp]
  simp

theorem thresholdReached_decide (target : Nat) (htgt : 0 < target)
    (q : List Nat) :
    thresholdReached target q = decide (target ≤ q.length) := by
  by_cases h : target ≤ q.length
  · have hne : q.isEmpty = false := by
      cases hq : q
      · rw [hq] at h; simp at h; omega
      · rfl
    simp [thresholdReached, h, hne]
  · simp [thresholdReached, h]

/-- A terminal error whose code is `OperationCanceledError` — in particular
the one `reply.abort()` itself generates — never surfaces a dialog. -/
theorem stream_error_cancel_silent (s : MainWindow) (err : String) :
    hasDialog (on_stream_error OperationCanceledError err s).2 = false := by
  by_cases h : s.is_cleaning_up = true ∨ s.network_reply = none
  · simp [on_stream_error, h, hasDialog]
  · have hc := cleanup_no_dialog s
    simp only [on_stream_error, h, if_false]
    simpa [hasDialog, List.any_append] using hc

/-- When the fields do not all parse, `timeFields` returns 0. -/
theorem timeFields_zero (hour? : Option Int) (m s_ms : List Char)
    (h : fieldsParsable hour? m s_ms = false) :
    timeFields hour? m s_ms = 0 := by
  unfold timeFields
  unfold fieldsParsable at h
  cases hsp : pySplit ['.'] s_ms with
  | nil => rfl
  | cons sv l1 =>
    rw [hsp] at h
    cases l1 with
    | nil => rfl
    | cons msv l2 =>
      cases l2 with
      | nil =>
        cases hour? <;> cases hm : pyStrToInt? m <;>
          cases hs : pyStrToInt? sv <;> cases hms : pyStrToInt? msv <;>
          simp [hm, hs, hms] at h ⊢
      | cons e l3 => rfl

/-! ## Claim theorems -/

/-- C1:  In PreBuffer mode with threshold `T > 0`, for every sequence of
incremental-data events: after each prefix of the sequence,
`playback_started` holds exactly when the cumulative received bytes have
reached `T` (so playback starts at the first data event reaching `T` and
the flag stays set from then on); over the whole sequence the sink is
handed the buffer exactly once when the total reaches `T` and never
otherwise; and once set, no further transfer event of the session clears
the flag. -/
theorem c1_prebuffer_threshold_trigger (T : Nat) (hT : 0 < T)
    (es : List (List Nat)) :
    (∀ p : List (List Nat), p <+: es →
      (session_run (session_init true T)
          (p.map SEvent.data)).1.playback_started
        = decide (T ≤ p.flatten.length))
    ∧ ((session_run (session_init true T) (es.map SEvent.data)).2.count
        Effect.playFromDevice = if T ≤ es.flatten.length then 1 else 0)
    ∧ (∀ (rest : List SEvent) (s : MainWindow), s.playback_started = true →
        (session_run s rest).1.playback_started = true) := by
  refine ⟨?_, ?_, fun rest s h => run_keeps_started rest s h⟩
  · intro p _
    rw [run_data_from_init, pbState_playback_started,
      thresholdReached_decide T hT]
  · rw [count_data_from_init, thresholdReached_decide T hT]
    simp

/-- Witness for C1 at `T = 1` and the single chunk `[5]`. -/
theorem c1_witness :
    0 < 1 ∧
    ((∀ p : List (List Nat), p <+: [[5]] →
      (session_run (session_init true 1)
          (p.map SEvent.data)).1.playback_started
        = decide (1 ≤ p.flatten.length))
    ∧ ((session_run (session_init true 1) ([[5]].map SEvent.data)).2.count
        Effect.playFromDevice = if 1 ≤ [[5]].flatten.length then 1 else 0)
    ∧ (∀ (rest : List SEvent) (s : MainWindow), s.playback_started = true →
        (session_run s rest).1.playback_started = true)) :=
  ⟨by decide, c1_prebuffer_threshold_trigger 1 (by decide) [[5]]⟩

/-- C2:  Cleanup is idempotent: a second `cleanup_after_playback` —
while the first is already recorded as in progress or after it completed —
changes nothing and performs no effect, and across both calls every
resource-release effect is performed at most once.  (Both calls are total
functions of the state: no exception path exists in the model, matching
the straight-line Python body.) -/
theorem c2_cleanup_idempotent (s : MainWindow) :
    ((cleanup_after_playback (cleanup_after_playback s).1).1 =
      (cleanup_after_playback s).1)
    ∧ ((cleanup_after_playback (cleanup_after_playback s).1).2 = [])
    ∧ (∀ ef : Effect,
        ((cleanup_after_playback s).2 ++
          (cleanup_after_playback (cleanup_after_playback s).1).2).count ef
          ≤ 1) := by
  have h2 : (cleanup_after_playback s).1.is_cleaning_up = true :=
    cleanup_sets_guard s
  have hg : cleanup_after_playback (cleanup_after_playback s).1 =
      ((cleanup_after_playback s).1, []) := by
    rw [cleanup_after_playback]
    simp [h2]
  refine ⟨by rw [hg], by rw [hg], ?_⟩
  intro ef
  rw [List.count_append, hg]
  simp only [List.count_nil, Nat.add_zero]
  have hnd : ((cleanup_after_playback s).2).Nodup := by
    by_cases h : s.is_cleaning_up = true
    · simp [cleanup_after_playback, h]
    · cases hr : s.network_reply <;>
        by_cases hw : s.player_widget = true <;>
        by_cases hp : s.playback_started = true <;>
        by_cases hd : s.player_buffer_device = true <;>
        simp [cleanup_after_playback, h, hr, hw, hp, hd]
  exact List.nodup_iff_count_le_one.mp hnd ef

/-- C3:  In FullDownload mode, whatever the configured threshold, a
session sees `playback_started` stay false and the sink receive nothing
over any event trace without the terminal completion event; appending the
completion event is what starts playback. -/
theorem c3_fulldownload_completion_only (T : Nat) (es : List SEvent)
    (h : transferComplete es = false) :
    ((session_run (session_init false T) es).1.playback_started = false)
    ∧ ((session_run (session_init false T) es).2.count
        Effect.playFromDevice = 0)
    ∧ ((session_run (session_init false T)
        (es ++ [SEvent.finished])).1.playback_started = true) := by
  have hflag : (fdRun [] false es).2 = false :=
    fdRun_flag_of_not_finished es [] h
  refine ⟨?_, ?_, ?_⟩
  · rw [session_init_fd, run_fdState, fdState_playback_started, hflag]
  · rw [session_init_fd, count_fdState, hflag]
    simp
  · rw [session_init_fd, run_fdState, fdRun_append, fdState_playback_started]
    simp [fdRun]

/-- Witness for C3 with one data event. -/
theorem c3_witness :
    transferComplete [SEvent.data [1]] = false ∧
    (((session_run (session_init false 0)
        [SEvent.data [1]]).1.playback_started = false)
    ∧ ((session_run (session_init false 0) [SEvent.data [1]]).2.count
        Effect.playFromDevice = 0)
    ∧ ((session_run (session_init false 0)
        ([SEvent.data [1]] ++ [SEvent.finished])).1.playback_started =
        true)) :=
  ⟨by decide, c3_fulldownload_completion_only 0 [SEvent.data [1]] (by decide)⟩

/-- C4:  While a reply handle is installed, a terminal error surfaces a
dialog iff the session is not already cleaning up and the code is not
`OperationCanceledError`; after cleanup (which sets the guard and nulls the
handle before aborting) no error event surfaces a dialog, and a
cancellation-coded error never does in any state. -/
theorem c4_error_dialog_iff (s : MainWindow) (code : Nat) (err : String)
    (h : s.network_reply.isSome = true) :
    (hasDialog (on_stream_error code err s).2 = true ↔
      (s.is_cleaning_up = false ∧ code ≠ OperationCanceledError))
    ∧ (∀ (t : MainWindow) (c : Nat) (e : String),
        hasDialog (on_stream_error c e (cleanup_after_playback t).1).2 =
          false)
    ∧ (∀ (t : MainWindow) (e : String),
        hasDialog (on_stream_error OperationCanceledError e t).2 = false) := by
  obtain ⟨r, hr⟩ := Option.isSome_iff_exists.mp h
  refine ⟨?_, ?_, fun t e => stream_error_cancel_silent t e⟩
  · cases hcl : s.is_cleaning_up
    · by_cases hcode : code = OperationCanceledError
      · subst hcode
        rw [stream_error_cancel_silent]
        simp
      · have hd : hasDialog (on_stream_error code err s).2 = true := by
          simp [on_stream_error, hcl, hr, hcode, hasDialog, isErrorDialog]
        rw [hd]
        simp [hcode]
    · have hd : hasDialog (on_stream_error code err s).2 = false := by
        simp [on_stream_error, hcl, hasDialog]
      rw [hd]
      simp [hcl]
  · intro t c e
    simp [on_stream_error, cleanup_sets_guard t, hasDialog]

/-- Witness for C4 at a state holding reply 0. -/
theorem c4_witness :
    ({ initWindow with network_reply := some 0 }
        : MainWindow).network_reply.isSome = true ∧
    ((hasDialog (on_stream_error 3 "host not found"
        { initWindow with network_reply := some 0 }).2 = true ↔
      (({ initWindow with network_reply := some 0 }
          : MainWindow).is_cleaning_up = false ∧
        (3 : Nat) ≠ OperationCanceledError))
    ∧ (∀ (t : MainWindow) (c : Nat) (e : String),
        hasDialog (on_stream_error c e (cleanup_after_playback t).1).2 =
          false)
    ∧ (∀ (t : MainWindow) (e : String),
        hasDialog (on_stream_error OperationCanceledError e t).2 = false)) :=
  ⟨by decide,
   c4_error_dialog_iff { initWindow with network_reply := some 0 } 3
     "host not found" (by decide)⟩

/-- C5:  In PreBuffer mode, when the transfer completes normally with
`0 < N < T` bytes received and playback has not started, the completion
event starts playback with exactly the `N` received bytes, handing the sink
the buffer exactly once, and no error dialog is surfaced. -/
theorem c5_completion_under_threshold (T : Nat) (es : List (List Nat))
    (h0 : es.flatten ≠ []) (hlt : es.flatten.length < T) :
    ((session_run (session_init true T)
        (es.map SEvent.data)).1.playback_started = false)
    ∧ ((session_run (session_init true T)
        (es.map SEvent.data ++ [SEvent.finished])).1.playback_started =
        true)
    ∧ ((session_run (session_init true T)
        (es.map SEvent.data ++ [SEvent.finished])).1.download_buffer =
        some es.flatten)
    ∧ ((session_run (session_init true T)
        (es.map SEvent.data ++ [SEvent.finished])).2.count
        Effect.playFromDevice = 1)
    ∧ (hasDialog (session_run (session_init true T)
        (es.map SEvent.data ++ [SEvent.finished])).2 = false) := by
  have hne : es.flatten.isEmpty = false := by
    cases hq : es.flatten
    · exact absurd hq h0
    · rfl
  have hthr : thresholdReached T es.flatten = false := by
    rw [thresholdReached, decide_eq_false (by omega : ¬ T ≤ es.flatten.length),
      Bool.and_false]
  have hp := pbRun_data T es []
  rw [show thresholdReached T [] = false from rfl] at hp
  have hflagfull :
      pbRun T [] false (es.map SEvent.data ++ [SEvent.finished]) =
        (es.flatten, true) := by
    rw [pbRun_append, hp]
    simp [pbRun, hthr, hne]
  refine ⟨?_, ?_, ?_, ?_, ?_⟩
  · rw [run_data_from_init, pbState_playback_started, hthr]
  · rw [session_init_pb, run_pbState, pbState_playback_started, hflagfull]
  · rw [session_init_pb, run_pbState, pbState_download_buffer, hflagfull]
  · rw [session_init_pb, count_pbState, hflagfull]
    simp
  · rw [hasDialog, List.any_eq_false]
    intro e he
    rw [session_init_pb] at he
    rw [pb_effects_play T _ [] false e he]
    simp [isErrorDialog]

/-- Witness for C5: two chunks totalling 2 bytes against a threshold of
5. -/
theorem c5_witness :
    ([[1], [2]] : List (List Nat)).flatten ≠ [] ∧
    (([[1], [2]] : List (List Nat)).flatten.length < 5 ∧
    (((session_run (session_init true 5)
        ([[1], [2]].map SEvent.data)).1.playback_started = false)
    ∧ ((session_run (session_init true 5)
        ([[1], [2]].map SEvent.data ++ [SEvent.finished])).1.playback_started
        = true)
    ∧ ((session_run (session_init true 5)
        ([[1], [2]].map SEvent.data ++ [SEvent.finished])).1.download_buffer
        = some ([[1], [2]] : List (List Nat)).flatten)
    ∧ ((session_run (session_init true 5)
        ([[1], [2]].map SEvent.data ++ [SEvent.finished])).2.count
        Effect.playFromDevice = 1)
    ∧ (hasDialog (session_run (session_init true 5)
        ([[1], [2]].map SEvent.data ++ [SEvent.finished])).2 = false))) :=
  ⟨by decide, by decide,
   c5_completion_under_threshold 5 [[1], [2]] (by decide) (by decide)⟩

/-- C6 counterexample:  The stated invariant — in PreBuffer mode
`playback_started` implies `receivedBuffer.size() >= bufferTarget` — fails:
with target 5, one 1-byte chunk and then normal completion, the completion
fallback (lines 1291-1294) starts playback with a 1-byte buffer. -/
theorem c6_counterexample :
    ((session_run (session_init true 5)
        [SEvent.data [42], SEvent.finished]).1.use_buffer = true)
    ∧ ((session_run (session_init true 5)
        [SEvent.data [42], SEvent.finished]).1.buffer_target = 5)
    ∧ ((session_run (session_init true 5)
        [SEvent.data [42], SEvent.finished]).1.playback_started = true)
    ∧ (bufSize (session_run (session_init true 5)
        [SEvent.data [42], SEvent.finished]).1.download_buffer < 5) := by
  decide

/-- C6 amended:  In every state a session reaches from its own
transfer events, `playback_started` implies: in PreBuffer mode, the buffer
has reached `bufferTarget` *or the transfer has completed* (the completion
fallback of lines 1291-1294 starts playback below the threshold); in
FullDownload mode, the transfer has completed. -/
theorem c6_invariant_amended (u : Bool) (T : Nat) (es : List SEvent)
    (h : (session_run (session_init u T) es).1.playback_started = true) :
    (u = true →
      T ≤ bufSize (session_run (session_init u T) es).1.download_buffer ∨
        transferComplete es = true)
    ∧ (u = false → transferComplete es = true) := by
  cases u
  · refine ⟨fun h' => absurd h' (by simp), fun _ => ?_⟩
    by_contra hfin
    rw [Bool.not_eq_true] at hfin
    have hflag := fdRun_flag_of_not_finished es [] hfin
    rw [session_init_fd, run_fdState, fdState_playback_started, hflag] at h
    exact absurd h (by simp)
  · refine ⟨fun _ => ?_, fun h' => absurd h' (by simp)⟩
    rw [session_init_pb, run_pbState, pbState_playback_started] at h
    rcases pbRun_flag_origin T es [] false h with h1 | h2 | h3
    · exact absurd h1 (by simp)
    · left
      rw [session_init_pb, run_pbState, pbState_download_buffer]
      simpa [bufSize] using h2
    · exact Or.inr h3

/-- Witness for the amended C6: PreBuffer, target 1, one 9-byte chunk. -/
theorem c6_amended_witness :
    ((session_run (session_init true 1)
        [SEvent.data [9]]).1.playback_started = true)
    ∧ ((true = true →
        1 ≤ bufSize (session_run (session_init true 1)
          [SEvent.data [9]]).1.download_buffer ∨
          transferComplete [SEvent.data [9]] = true)
      ∧ (true = false → transferComplete [SEvent.data [9]] = true)) :=
  ⟨by decide, c6_invariant_amended true 1 [SEvent.data [9]] (by decide)⟩

/-- C7 counterexample: with an empty cookie set but a selected subtitle,
`play_video` starts the `SubtitleDownloader` HTTP request (line 1215)
*before* the cookie check (line 1227): the effect list contains the
subtitle request strictly before the refusal dialog, so an HTTP request is
issued for the session and network activity precedes the precondition
error, against the claim as stated. -/
theorem c7_counterexample :
    (play_video ⟨some "http://s:1", []⟩ true 5 [7] (some (some 9)) 0
        initWindow).2 =
      [Effect.clearSubtitles, Effect.releaseBuffer, Effect.resetPlaybackFlag,
       Effect.clearSubtitles,
       Effect.subtitleRequest "http://s:1/file/serve/9.srt",
       Effect.errorDialog "Login session cookie not found."] := by
  decide

/-- C7 amended: with a resolvable media item (a video file and a configured
API client) but an empty cookie set, the session is refused with the dialog
"Login session cookie not found." and the streaming GET is never issued —
whatever subtitle selection was passed; the refusal precedes *all* HTTP
requests only when no subtitle was selected (a selected subtitle's download
starts before the cookie check, as the counterexample shows). -/
theorem c7_empty_cookies_amended (api : ApiClient) (b : String) (ub : Bool)
    (mb rid fid : Nat) (rest : List Nat) (sub : Option (Option Nat))
    (s : MainWindow) (hb : api.base_url = some b) (hc : api.cookies = []) :
    (Effect.errorDialog "Login session cookie not found." ∈
      (play_video api ub mb (fid :: rest) sub rid s).2)
    ∧ (∀ u, Effect.httpGet u ∉ (play_video api ub mb (fid :: rest) sub rid s).2)
    ∧ (sub = none → ∀ u, Effect.subtitleRequest u ∉
        (play_video api ub mb (fid :: rest) none rid s).2) := by
  have hck : cookie_header api.cookies = "" := by rw [hc]; rfl
  refine ⟨?_, ?_, ?_⟩
  · rcases sub with _ | (_ | sid) <;>
      simp [play_video, get_stream_url, hb, hck]
  · intro u hmem
    rcases sub with _ | (_ | sid) <;>
      simp [play_video, get_stream_url, hb, hck] at hmem <;>
      rcases cleanup_effect_shape _ _ hmem with h1 | h1 | ⟨r, h1⟩ | h1 | h1 | h1 <;>
      simp at h1
  · intro _ u hmem
    simp [play_video, get_stream_url, hb, hck] at hmem
    rcases cleanup_effect_shape _ _ hmem with h1 | h1 | ⟨r, h1⟩ | h1 | h1 | h1 <;>
      simp at h1

/-- Witness for the amended C7 at a concrete configured client with no
cookies and no subtitle selection. -/
theorem c7_amended_witness :
    (⟨some "http://s:1", []⟩ : ApiClient).base_url = some "http://s:1" ∧
    ((⟨some "http://s:1", []⟩ : ApiClient).cookies = [] ∧
    ((Effect.errorDialog "Login session cookie not found." ∈
      (play_video ⟨some "http://s:1", []⟩ true 5 [7] none 0 initWindow).2)
    ∧ (∀ u, Effect.httpGet u ∉
        (play_video ⟨some "http://s:1", []⟩ true 5 [7] none 0 initWindow).2)
    ∧ ((none : Option (Option Nat)) = none →
        ∀ u, Effect.subtitleRequest u ∉
          (play_video ⟨some "http://s:1", []⟩ true 5 [7] none 0
            initWindow).2))) :=
  ⟨rfl, rfl,
   c7_empty_cookies_amended ⟨some "http://s:1", []⟩ "http://s:1" true 5 0 7
     [] none initWindow rfl rfl⟩

/-- C8 counterexample:  In FullDownload mode a zero-byte completion
does start playback: `on_robust_download_finished` calls `start_playback`
unconditionally, so the session reaches the playing state with an empty
buffer. -/
theorem c8_counterexample :
    ((session_run (session_init false 0)
        [SEvent.finished]).1.playback_started = true)
    ∧ ((session_run (session_init false 0)
        [SEvent.finished]).1.download_buffer = some []) := by
  decide

/-- C8 amended:  On a zero-byte completed transfer with playback not
started, the PreBuffer session never reaches the playing state, while the
FullDownload session starts playback at completion even with an empty
buffer; in both modes the handlers are total, so nothing crashes. -/
theorem c8_zero_byte_amended (T Tfd : Nat) (es : List (List Nat))
    (hz : es.flatten = []) :
    ((session_run (session_init true T)
        (es.map SEvent.data ++ [SEvent.finished])).1.playback_started =
        false)
    ∧ ((session_run (session_init false Tfd)
        [SEvent.finished]).1.playback_started = true) := by
  constructor
  · rw [session_init_pb, run_pbState, pbState_playback_started, pbRun_append]
    have hp := pbRun_data T es []
    rw [show thresholdReached T [] = false from rfl] at hp
    rw [hp, hz]
    rfl
  · rw [session_init_fd, run_fdState, fdState_playback_started]
    rfl

/-- Witness for the amended C8 with one empty chunk. -/
theorem c8_amended_witness :
    ([[]] : List (List Nat)).flatten = [] ∧
    (((session_run (session_init true 5)
        ([[]].map SEvent.data ++ [SEvent.finished])).1.playback_started =
        false)
    ∧ ((session_run (session_init false 0)
        [SEvent.finished]).1.playback_started = true)) :=
  ⟨by decide, c8_zero_byte_amended 5 0 [[]] (by decide)⟩

/-- C9 counterexample:  Stale events are *not* all dropped.  Session A
runs in FullDownload mode on reply 0 (its `finished` signal is connected to
`on_robust_download_finished`, line 1250).  Starting session B aborts and
nulls A's reply during cleanup, but A's pending `finished` callback — which
the spec's concurrency model says may still arrive afterwards — reaches
`on_robust_download_finished`, which has no staleness guard: delivered in
B's freshly started state it sets B's `playback_started` and hands the sink
B's empty buffer, an observable effect of A's event on B's playback
state. -/
theorem c9_counterexample :
    (sessionB.playback_started = false)
    ∧ (sessionB.network_reply = some 1)
    ∧ ((play_video apiC true 5 [2] none 1 sessionA).2.count
        (Effect.abortReply 0) = 1)
    ∧ ((finished_handler false sessionB).1.playback_started = true)
    ∧ ((finished_handler false sessionB).1.download_buffer = some [])
    ∧ ((finished_handler false sessionB).2 = [Effect.playFromDevice]) := by
  decide

/-- C9 amended:  After session B replaces session A, the stale events
from A that the guards do drop: progress events change nothing; a stale
`readyRead` finds no bytes of A's through the replaced handle and leaves
the buffer as it is (in either mode); a stale error event with the
cancellation code never surfaces a dialog; and a stale PreBuffer-mode
completion event is a no-op on a freshly started B (empty buffer).  (A
stale FullDownload-mode completion event is *not* dropped — the
counterexample — and a stale error event still triggers a cleanup when the
guard is clear.) -/
theorem c9_stale_events_amended :
    (∀ (u : Bool) (br bt : Nat) (s : MainWindow),
      progress_handler u br bt s = (s, []))
    ∧ (∀ (target : Nat) (bytes : List Nat),
        append_to_buffer []
            (pbState target bytes (thresholdReached target bytes)) =
          (pbState target bytes (thresholdReached target bytes), []))
    ∧ (∀ (bytes : List Nat) (st : Bool),
        append_to_buffer [] (fdState bytes st) = (fdState bytes st, []))
    ∧ (∀ (s : MainWindow) (e : String),
        hasDialog (on_stream_error OperationCanceledError e s).2 = false)
    ∧ (∀ target : Nat, finished_handler true (pbState target [] false) =
        (pbState target [] false, [])) := by
  refine ⟨fun u br bt s => progress_id u br bt s, ?_, ?_,
    fun s e => stream_error_cancel_silent s e, ?_⟩
  · intro target bytes
    rw [append_pbState]
    simp only [List.append_nil]
    cases hbt : thresholdReached target bytes <;> simp [hbt]
  · intro bytes st
    rw [append_fdState]
    simp
  · intro target
    rw [finished_pbState]
    rfl

/-- C10:  Subtitle parsing is total: `time_str_to_ms` returns an integer
for every input, returning 0 whenever the string does not have two or three
`:`-separated fields with a final `seconds.milliseconds` part whose fields
all parse as integers; and `parse_subtitles` returns, for arbitrary input,
a list of `(start_ms, end_ms, text)` cues whose text is non-empty after tag
stripping. -/
theorem c10_subtitle_parsing_total (content time_str : List Char)
    (hbad : timeParsable time_str = false) :
    (time_str_to_ms time_str = 0)
    ∧ (∀ cue ∈ parse_subtitles content, cue.2.2 ≠ []) := by
  constructor
  · simp only [time_str_to_ms]
    simp only [timeParsable] at hbad
    cases hsp : pySplit [':']
        (time_str.map (fun c => if c = ',' then '.' else c)) with
    | nil => rfl
    | cons a l1 =>
      rw [hsp] at hbad
      cases l1 with
      | nil => rfl
      | cons b l2 =>
        cases l2 with
        | nil => exact timeFields_zero (some 0) a b hbad
        | cons c l3 =>
          cases l3 with
          | nil => exact timeFields_zero (pyStrToInt? a) b c hbad
          | cons d l4 => rfl
  · have hblock : ∀ (iv : Bool) (acc : List (Int × Int × List Char))
        (block : List Char), (∀ cue ∈ acc, cue.2.2 ≠ []) →
        ∀ cue ∈ parseBlock iv acc block, cue.2.2 ≠ [] := by
      intro iv acc block hacc cue hcue
      rw [parseBlock] at hcue
      split at hcue
      · exact hacc cue hcue
      · split at hcue
        · exact hacc cue hcue
        · split at hcue
          · simp only [] at hcue
            split at hcue
            · rename_i htext
              rcases List.mem_append.mp hcue with hm | hm
              · exact hacc cue hm
              · rw [List.mem_singleton] at hm
                subst hm
                simp only [Bool.not_eq_true'] at htext
                show stripTags _ ≠ []
                intro hn
                rw [hn] at htext
                simp at htext
            · exact hacc cue hcue
          · exact hacc cue hcue
    have hfold : ∀ (bs : List (List Char)) (iv : Bool)
        (acc : List (Int × Int × List Char)), (∀ cue ∈ acc, cue.2.2 ≠ []) →
        ∀ cue ∈ bs.foldl (parseBlock iv) acc, cue.2.2 ≠ [] := by
      intro bs
      induction bs with
      | nil => intro iv acc hacc; simpa using hacc
      | cons b bs ih =>
        intro iv acc hacc
        simp only [List.foldl_cons]
        exact ih iv _ (hblock iv acc b hacc)
    intro cue hcue
    rw [parse_subtitles] at hcue
    split at hcue
    · simp at hcue
    · exact hfold _ _ [] (by simp) cue hcue

/-- Witness for C10: an unparsable time string and a tiny subtitle file. -/
theorem c10_witness :
    timeParsable "abc".data = false ∧
    ((time_str_to_ms "abc".data = 0)
    ∧ (∀ cue ∈ parse_subtitles "hi".data, cue.2.2 ≠ [])) :=
  ⟨by decide, c10_subtitle_parsing_total "hi".data "abc".data (by decide)⟩

end Streama
